import Mathlib

/-!
Verification of the tag-aware extraction and rendering pipeline of
NoteOrganiser, as implemented in `src/noteorganiser/frames.py` (class
`Preview`).  The `Preview` class owns the session state (current notebook,
extracted tags, active filter sequence, artifact directories) and drives the
pipeline through `initLogic`, `loadNotebook`, `convert` and `addFilter`.

The text-processing helper `text_processing.from_notes_to_markdown` (the
entry parser / filter engine) is not part of the visible source; `convert`
calls it through the parameter `fntm`.  Where a claim depends on its
behaviour, a definition modelled from the spec is used and clearly marked.

The external renderer (`pypandoc.convert`) is a parameter
`renderer : String → Option String`, with `none` standing for a raised
error.  Two instrumentation counters on the state, `parseCalls` and
`rendererCalls`, record how many times `convert` has invoked the external
helper and the renderer; they have no other effect on the semantics.
-/

namespace NoteOrganiser

/-- The notebook filename extension, from the `constants` module (imported by
`frames.py` but outside the visible source).  Its exact value is immaterial
to every claim; the conventional value is used. -/
def EXTENSION : String := ".md"

/-- `os.path.join` for the two-argument uses in `frames.py`. -/
def pjoin (a b : String) : String := a ++ "/" ++ b

/-- `os.path.basename`: the characters after the last `/`. -/
def basename (p : String) : String :=
  ⟨(p.data.reverse.takeWhile (fun c => c ≠ '/')).reverse⟩

/-- Python `sep.join(parts)`. -/
def joinSep (sep : String) : List String → String
  | [] => ""
  | [t] => t
  | t :: ts => t ++ sep ++ joinSep sep ts

/-- Python `s[:-len(EXTENSION)]`: drop the trailing extension (all of `s`
when it is shorter than the extension, as with Python's negative slice). -/
def stripExtension (s : String) : String :=
  ⟨s.data.take (s.data.length - EXTENSION.data.length)⟩

/-- The base name composed in `Preview.convert`:
`base = os.path.basename(path)[:-len(EXTENSION)]`, then
`if tags: base += '_' + '_'.join(tags)`.  Note: the tag sequence is used in
the order given; it is not sorted. -/
def cacheBase (path : String) (tags : List String) : String :=
  let base := stripExtension (basename path)
  if tags.isEmpty then base else base ++ "_" ++ joinSep "_" tags

/-- Python exceptions that can escape the modelled methods:
`ValueError` from `list.index`, and a renderer failure from `pypandoc`. -/
inductive PyError where
  | valueError
  | renderError
deriving DecidableEq, Repr

/-- A write to the filesystem: the file at `p` is created or overwritten
with content `c`. -/
def writeFile (files : String → Option String) (p c : String) :
    String → Option String :=
  fun q => if q = p then some c else files q

/-- `os.mkdir` guarded by `if not os.path.isdir(path)`, as in
`Preview.initLogic`.  The second component records whether `mkdir` was
actually invoked (it is invoked only when the directory is missing, so the
`FileExistsError` case of `os.mkdir` cannot arise). -/
def ensureDir (dirs : String → Bool) (p : String) : (String → Bool) × Bool :=
  if dirs p then (dirs, false)
  else (fun q => if q = p then true else dirs q, true)

/-- The state of a `Preview` session together with the filesystem it
touches.  Fields mirror the attributes set in `Preview.initLogic` /
`initUI`; `tagButtons` keeps `(key, enabled)` for each tag button (the
checked state lives inside the Qt widget and is not consulted by the
source's logic beyond the clicked button's own state, which the modelled
`addFilter` receives as an argument).  `parseCalls` and `rendererCalls` are
instrumentation counters for the external calls made by `convert`. -/
structure AppState where
  level : String
  website_root : String
  temp_root : String
  dirs : String → Bool
  files : String → Option String
  current_notebook : String
  sha : List String
  extracted_tags : List (String × Nat)
  filters : List String
  tagButtons : List (String × Bool)
  parseCalls : Nat
  rendererCalls : Nat

/-- The scratch (temporary markdown) location written by `Preview.convert`:
`os.path.join(self.temp_root, base + EXTENSION)`. -/
def tempPathOf (s : AppState) (path : String) (tags : List String) : String :=
  pjoin s.temp_root (cacheBase path tags ++ EXTENSION)

/-- The rendered-artifact location written by `Preview.convert`:
`url = os.path.join(self.website_root, base + '.html')`. -/
def htmlPathOf (s : AppState) (path : String) (tags : List String) : String :=
  pjoin s.website_root (cacheBase path tags ++ ".html")

/-- `Preview.convert(path, tags)`:
1. `markdown, remaining_tags = tp.from_notes_to_markdown(path, input_tags=tags)`,
2. write `'\n'.join(markdown)` to the scratch file named from the base and
   the tag sequence,
3. `html = pa.convert(temp_path, 'html')` (the external renderer; a failure
   propagates as an exception),
4. write the html to `url` under `website_root` and return
   `(url, remaining_tags)`.
There is no check for an existing artifact before step 3. -/
def convert (fntm : String → List String → List String × List (String × Nat))
    (renderer : String → Option String) (s : AppState)
    (path : String) (tags : List String) :
    Except PyError (String × List (String × Nat)) × AppState :=
  let markdown := (fntm path tags).1
  let remaining := (fntm path tags).2
  let content := joinSep "\n" markdown
  let s1 : AppState :=
    { s with parseCalls := s.parseCalls + 1,
             files := writeFile s.files (tempPathOf s path tags) content,
             rendererCalls := s.rendererCalls + 1 }
  match renderer content with
  | none => (Except.error PyError.renderError, s1)
  | some html =>
      (Except.ok (htmlPathOf s path tags, remaining),
       { s1 with files := writeFile s1.files (htmlPathOf s path tags) html })

/-- `Preview.initLogic`: derive the `.website` and `.temp` roots from
`info.level`, create each only when missing, and reset the session state
(`current_notebook`, `sha`, `extracted_tags`, `filters`). -/
def initLogic (s : AppState) : AppState :=
  let wr := pjoin s.level ".website"
  let tr := pjoin s.level ".temp"
  let d1 := (ensureDir s.dirs wr).1
  let d2 := (ensureDir d1 tr).1
  { s with website_root := wr, temp_root := tr, dirs := d2,
           current_notebook := "", sha := [],
           extracted_tags := [], filters := [] }

/-- The tag-button construction in `Preview.initUI`: one button per
extracted tag, capped at `max_index = 10`, each initially enabled. -/
def initUI (s : AppState) : AppState :=
  { s with tagButtons := (s.extracted_tags.take 10).map (fun kv => (kv.1, true)) }

/-- `Preview.loadNotebook(notebook, tags=[])`: reset the session through
`initLogic`, record the notebook, run `convert` on
`os.path.join(info.level, notebook)` with the requested tags, store the
returned remaining tags in `extracted_tags`, and rebuild the UI.  Note that
`self.filters` is left as the empty list set by `initLogic`; the requested
`tags` are not stored there. -/
def loadNotebook (fntm : String → List String → List String × List (String × Nat))
    (renderer : String → Option String) (s : AppState)
    (notebook : String) (tags : List String) :
    Except PyError String × AppState :=
  let s0 := { initLogic s with current_notebook := notebook }
  match convert fntm renderer s0 (pjoin s0.level notebook) tags with
  | (Except.error e, s1) => (Except.error e, s1)
  | (Except.ok (url, remaining), s1) =>
      (Except.ok url, initUI { s1 with extracted_tags := remaining })

/-- `Preview.addFilter`, the slot run when a tag button is clicked;
`checked` is the clicked button's new checked state.  Checked: append the
tag to `self.filters`.  Unchecked:
`self.filters.pop(self.filters.index(tag))` — `list.index` raises
`ValueError` when the tag is absent, before any state change.  Then re-run
`convert` on the current notebook with the updated filter and grey out
every button whose key is not in the returned remaining tags. -/
def addFilter (fntm : String → List String → List String × List (String × Nat))
    (renderer : String → Option String) (s : AppState)
    (tag : String) (checked : Bool) :
    Except PyError (String × List (String × Nat)) × AppState :=
  let run : AppState → Except PyError (String × List (String × Nat)) × AppState :=
    fun s' =>
      match convert fntm renderer s' (pjoin s'.level s'.current_notebook) s'.filters with
      | (Except.error e, s1) => (Except.error e, s1)
      | (Except.ok (url, remaining), s1) =>
          let keys := remaining.map Prod.fst
          let buttons := s1.tagButtons.map (fun b => (b.1, keys.contains b.1))
          (Except.ok (url, remaining), { s1 with tagButtons := buttons })
  match checked with
  | true => run { s with filters := s.filters ++ [tag] }
  | false =>
    match s.filters.findIdx? (fun t => t = tag) with
    | none => (Except.error PyError.valueError, s)
    | some i => run { s with filters := s.filters.eraseIdx i }

/-- Modelled from the spec: one parsed notebook entry, carrying a title, a
tag set and a body (`Entry` of §3; the timestamp plays no role in the
claims below). -/
structure Entry where
  title : String
  tags : List String
  body : List String
deriving DecidableEq, Repr

/-- Modelled from the spec (§4.3): the entries whose tag set is a superset
of the active tags (AND semantics), in original order. -/
def matchedEntries (entries : List Entry) (active : List String) : List Entry :=
  entries.filter (fun e => active.all (fun t => e.tags.contains t))

/-- Modelled from the spec (§4.2): the number of entries in `es` bearing
tag `t`. -/
def tagCount (es : List Entry) (t : String) : Nat :=
  (es.filter (fun e => e.tags.contains t)).length

/-- Modelled from the spec (§4.3): the tags appearing on at least one
matched entry, excluding those already active, each with its usage count
over the matched entries. -/
def remainingOf (entries : List Entry) (active : List String) :
    List (String × Nat) :=
  let m := matchedEntries entries active
  (((m.map Entry.tags).flatten).dedup.filter (fun t => ! active.contains t)).map
    (fun t => (t, tagCount m t))

/-- Modelled from the spec: `text_processing.from_notes_to_markdown`,
which is imported by `frames.py` but not part of the visible source.  It
parses the notebook at the given path into entries, filters them by the
active tags, and returns the assembled markdown lines together with the
remaining (reachable) tags and their counts.  The parsed entry sequence is
supplied as `entries`, standing for the content of the notebook file. -/
def fntmOf (entries : List Entry) (_path : String) (active : List String) :
    List String × List (String × Nat) :=
  (((matchedEntries entries active).map (fun e => e.title :: e.body)).flatten,
   remainingOf entries active)

/-! Concrete fixtures used by the counterexamples and witnesses below. -/

/-- An empty filesystem. -/
def emptyFS : String → Option String := fun _ => none

/-- No directory exists yet. -/
def noDirs : String → Bool := fun _ => false

/-- A fresh `Preview` session over the folder `home`, before `initLogic`. -/
def s0 : AppState :=
  { level := "home", website_root := "", temp_root := "", dirs := noDirs,
    files := emptyFS, current_notebook := "", sha := [], extracted_tags := [],
    filters := [], tagButtons := [], parseCalls := 0, rendererCalls := 0 }

/-- A fixed stand-in for `text_processing.from_notes_to_markdown`: every
call yields the same one-line document and one remaining tag. -/
def fntm0 : String → List String → List String × List (String × Nat) :=
  fun _ _ => (["note"], [("y", 1)])

/-- A renderer that always succeeds. -/
def renderer0 : String → Option String := fun c => some ("<html>" ++ c)

/-- A renderer that always fails (raises inside `pypandoc.convert`). -/
def rendererFail : String → Option String := fun _ => none

/-- The three entries of the spec's Scenario A:
`[{title: a, tags: {x}}, {title: b, tags: {y}}, {title: c, tags: {x, y}}]`. -/
def entriesA : List Entry :=
  [⟨"a", ["x"], []⟩, ⟨"b", ["y"], []⟩, ⟨"c", ["x", "y"], []⟩]

/-- A session with notebook `nb.md` loaded, both tag buttons enabled and no
active filter, as after `loadNotebook` on the Scenario A notebook. -/
def sP : AppState :=
  { s0 with website_root := "home/.website", temp_root := "home/.temp",
            current_notebook := "nb.md", extracted_tags := [("x", 2), ("y", 2)],
            tagButtons := [("x", true), ("y", true)] }

/-- `sP` with a previously rendered artifact for the empty filter
combination already on disk. -/
def sOld : AppState :=
  { sP with files := writeFile emptyFS "home/.website/nb.html" "old" }

/-- `sP` with the tag `x` already active in the filter. -/
def sF : AppState := { sP with filters := ["x"] }

/-! Helper lemmas about strings, paths and the session operations. -/

theorem getLast?_data_append (a b : String) (hb : b.data ≠ []) :
    (a ++ b).data.getLast? = b.data.getLast? := by
  rw [String.data_append a b]
  exact List.getLast?_append_of_ne_nil _ hb

theorem tempPathOf_getLast (s : AppState) (p : String) (t : List String) :
    (tempPathOf s p t).data.getLast? = some 'd' := by
  unfold tempPathOf pjoin EXTENSION
  rw [getLast?_data_append _ _ (by simp [String.data_append]),
      getLast?_data_append _ _ (by decide)]
  decide

theorem htmlPathOf_getLast (s : AppState) (p : String) (t : List String) :
    (htmlPathOf s p t).data.getLast? = some 'l' := by
  unfold htmlPathOf pjoin
  rw [getLast?_data_append _ _ (by simp [String.data_append]),
      getLast?_data_append _ _ (by decide)]
  decide

theorem tempPathOf_ne_htmlPathOf (s s' : AppState) (p p' : String)
    (t t' : List String) : tempPathOf s p t ≠ htmlPathOf s' p' t' := by
  intro h
  have h1 := tempPathOf_getLast s p t
  rw [h, htmlPathOf_getLast] at h1
  exact absurd h1 (by decide)

theorem str_append_left_cancel {a b c : String} (h : a ++ b = a ++ c) :
    b = c := by
  apply String.ext
  have hd := congrArg String.data h
  rw [String.data_append a b, String.data_append a c] at hd
  exact List.append_cancel_left hd

theorem str_append_right_cancel {a b c : String} (h : a ++ c = b ++ c) :
    a = b := by
  apply String.ext
  have hd := congrArg String.data h
  rw [String.data_append a c, String.data_append b c] at hd
  exact List.append_cancel_right hd

theorem split_at_first_sep (sep : Char) :
    ∀ (as bs cs ds : List Char), sep ∉ as → sep ∉ bs →
      as ++ sep :: cs = bs ++ sep :: ds → as = bs ∧ cs = ds := by
  intro as
  induction as with
  | nil =>
    intro bs cs ds _ hb h
    cases bs with
    | nil => simpa using h
    | cons b bs' =>
      simp only [List.nil_append, List.cons_append, List.cons.injEq] at h
      exact absurd (h.1 ▸ List.mem_cons_self b bs') hb
  | cons a as' ih =>
    intro bs cs ds ha hb h
    cases bs with
    | nil =>
      simp only [List.nil_append, List.cons_append, List.cons.injEq] at h
      exact absurd (h.1.symm ▸ List.mem_cons_self a as') ha
    | cons b bs' =>
      simp only [List.cons_append, List.cons.injEq] at h
      have ha' : sep ∉ as' := fun hm => ha (List.mem_cons_of_mem a hm)
      have hb' : sep ∉ bs' := fun hm => hb (List.mem_cons_of_mem b hm)
      have := ih bs' cs ds ha' hb' h.2
      exact ⟨by rw [h.1, this.1], this.2⟩

theorem joinSep_swap_ne (x y : String) (hxy : x ≠ y)
    (hx : '_' ∉ x.data) (hy : '_' ∉ y.data) :
    joinSep "_" [x, y] ≠ joinSep "_" [y, x] := by
  intro h
  have hd := congrArg String.data h
  simp only [joinSep, String.data_append, List.append_assoc,
    List.singleton_append] at hd
  exact hxy (String.ext (split_at_first_sep '_' x.data y.data y.data x.data
    hx hy hd).1)

theorem cacheBase_swap_ne (path x y : String) (hxy : x ≠ y)
    (hx : '_' ∉ x.data) (hy : '_' ∉ y.data) :
    cacheBase path [x, y] ≠ cacheBase path [y, x] := by
  unfold cacheBase
  simp only [List.isEmpty_cons]
  intro h
  exact joinSep_swap_ne x y hxy hx hy (str_append_left_cancel h)

theorem convert_dirs (f : String → List String → List String × List (String × Nat))
    (r : String → Option String) (s : AppState) (path : String)
    (tags : List String) : ((convert f r s path tags).2).dirs = s.dirs := by
  simp only [convert]
  split <;> rfl

theorem convert_level (f : String → List String → List String × List (String × Nat))
    (r : String → Option String) (s : AppState) (path : String)
    (tags : List String) : ((convert f r s path tags).2).level = s.level := by
  simp only [convert]
  split <;> rfl

theorem convert_filters (f : String → List String → List String × List (String × Nat))
    (r : String → Option String) (s : AppState) (path : String)
    (tags : List String) : ((convert f r s path tags).2).filters = s.filters := by
  simp only [convert]
  split <;> rfl

theorem convert_parseCalls (f : String → List String → List String × List (String × Nat))
    (r : String → Option String) (s : AppState) (path : String)
    (tags : List String) :
    ((convert f r s path tags).2).parseCalls = s.parseCalls + 1 := by
  simp only [convert]
  split <;> rfl

theorem convert_renderFail
    (f : String → List String → List String × List (String × Nat))
    (r : String → Option String) (s : AppState) (path : String)
    (tags : List String) (h : r (joinSep "\n" (f path tags).1) = none) :
    convert f r s path tags =
      (Except.error PyError.renderError,
       { s with parseCalls := s.parseCalls + 1,
                files := writeFile s.files (tempPathOf s path tags)
                  (joinSep "\n" (f path tags).1),
                rendererCalls := s.rendererCalls + 1 }) := by
  simp only [convert, h]

theorem convert_renderOk
    (f : String → List String → List String × List (String × Nat))
    (r : String → Option String) (s : AppState) (path : String)
    (tags : List String) (html : String)
    (h : r (joinSep "\n" (f path tags).1) = some html) :
    convert f r s path tags =
      (Except.ok (htmlPathOf s path tags, (f path tags).2),
       { s with parseCalls := s.parseCalls + 1,
                files := writeFile
                  (writeFile s.files (tempPathOf s path tags)
                    (joinSep "\n" (f path tags).1))
                  (htmlPathOf s path tags) html,
                rendererCalls := s.rendererCalls + 1 }) := by
  simp only [convert, h]

theorem convert_error_inv
    (f : String → List String → List String × List (String × Nat))
    (r : String → Option String) (s : AppState) (path : String)
    (tags : List String) (e : PyError) (s1 : AppState)
    (heq : convert f r s path tags = (Except.error e, s1)) :
    e = PyError.renderError ∧
    r (joinSep "\n" (f path tags).1) = none ∧
    s1 = { s with parseCalls := s.parseCalls + 1,
                  files := writeFile s.files (tempPathOf s path tags)
                    (joinSep "\n" (f path tags).1),
                  rendererCalls := s.rendererCalls + 1 } := by
  cases hr : r (joinSep "\n" (f path tags).1) with
  | none =>
    rw [convert_renderFail f r s path tags hr] at heq
    simp only [Prod.mk.injEq, Except.error.injEq] at heq
    exact ⟨heq.1.symm, rfl, heq.2.symm⟩
  | some html =>
    rw [convert_renderOk f r s path tags html hr] at heq
    simp at heq

theorem convert_ok_inv
    (f : String → List String → List String × List (String × Nat))
    (r : String → Option String) (s : AppState) (path : String)
    (tags : List String) (url : String) (remaining : List (String × Nat))
    (s1 : AppState)
    (heq : convert f r s path tags = (Except.ok (url, remaining), s1)) :
    ∃ html, r (joinSep "\n" (f path tags).1) = some html ∧
      url = htmlPathOf s path tags ∧ remaining = (f path tags).2 ∧
      s1 = { s with parseCalls := s.parseCalls + 1,
                    files := writeFile
                      (writeFile s.files (tempPathOf s path tags)
                        (joinSep "\n" (f path tags).1))
                      (htmlPathOf s path tags) html,
                    rendererCalls := s.rendererCalls + 1 } := by
  cases hr : r (joinSep "\n" (f path tags).1) with
  | none =>
    rw [convert_renderFail f r s path tags hr] at heq
    simp at heq
  | some html =>
    rw [convert_renderOk f r s path tags html hr] at heq
    simp only [Prod.mk.injEq, Except.ok.injEq] at heq
    exact ⟨html, rfl, heq.1.1.symm, heq.1.2.symm, heq.2.symm⟩

theorem initLogic_level (s : AppState) : (initLogic s).level = s.level := rfl

theorem initLogic_files (s : AppState) : (initLogic s).files = s.files := rfl

theorem loadNotebook_error_inv
    (f : String → List String → List String × List (String × Nat))
    (r : String → Option String) (s : AppState) (nb : String)
    (tags : List String) (e : PyError) (s2 : AppState)
    (heq : loadNotebook f r s nb tags = (Except.error e, s2)) :
    r (joinSep "\n" (f (pjoin s.level nb) tags).1) = none := by
  simp only [loadNotebook] at heq
  split at heq
  case _ e' s1 heq' =>
    obtain ⟨-, hrn, -⟩ := convert_error_inv _ _ _ _ _ _ _ heq'
    exact hrn
  case _ url remaining s1 heq' =>
    simp at heq

theorem loadNotebook_ok_inv
    (f : String → List String → List String × List (String × Nat))
    (r : String → Option String) (s : AppState) (nb : String)
    (tags : List String) (url : String) (s2 : AppState)
    (heq : loadNotebook f r s nb tags = (Except.ok url, s2)) :
    ∃ html,
      r (joinSep "\n" (f (pjoin s.level nb) tags).1) = some html ∧
      url = htmlPathOf (initLogic s) (pjoin s.level nb) tags ∧
      s2.filters = [] ∧
      s2.extracted_tags = (f (pjoin s.level nb) tags).2 ∧
      s2.files = writeFile
        (writeFile s.files (tempPathOf (initLogic s) (pjoin s.level nb) tags)
          (joinSep "\n" (f (pjoin s.level nb) tags).1))
        (htmlPathOf (initLogic s) (pjoin s.level nb) tags) html := by
  simp only [loadNotebook] at heq
  split at heq
  case _ e' s1 heq' =>
    simp at heq
  case _ url' remaining s1 heq' =>
    obtain ⟨html, hr, hurl, hrem, hs1⟩ := convert_ok_inv _ _ _ _ _ _ _ _ heq'
    simp only [Prod.mk.injEq, Except.ok.injEq] at heq
    obtain ⟨huu, hss⟩ := heq
    subst huu
    subst hss
    subst hs1
    subst hurl
    subst hrem
    exact ⟨html, hr, rfl, rfl, rfl, rfl⟩

theorem addFilter_true_error_inv
    (f : String → List String → List String × List (String × Nat))
    (r : String → Option String) (s : AppState) (tag : String)
    (e : PyError) (s2 : AppState)
    (heq : addFilter f r s tag true = (Except.error e, s2)) :
    e = PyError.renderError ∧
    r (joinSep "\n" (f (pjoin s.level s.current_notebook)
        (s.filters ++ [tag])).1) = none ∧
    s2.filters = s.filters ++ [tag] ∧
    s2.files = writeFile s.files
      (tempPathOf s (pjoin s.level s.current_notebook) (s.filters ++ [tag]))
      (joinSep "\n" (f (pjoin s.level s.current_notebook)
        (s.filters ++ [tag])).1) := by
  simp only [addFilter] at heq
  split at heq
  case _ e' s1 heq' =>
    obtain ⟨he, hrn, hs1⟩ := convert_error_inv _ _ _ _ _ _ _ heq'
    simp only [Prod.mk.injEq, Except.error.injEq] at heq
    obtain ⟨hee, hss⟩ := heq
    subst hee
    subst hss
    subst hs1
    exact ⟨he, hrn, rfl, rfl⟩
  case _ url remaining s1 heq' =>
    simp at heq

theorem addFilter_true_ok_inv
    (f : String → List String → List String × List (String × Nat))
    (r : String → Option String) (s : AppState) (tag : String)
    (url : String) (remaining : List (String × Nat)) (s2 : AppState)
    (heq : addFilter f r s tag true = (Except.ok (url, remaining), s2)) :
    ∃ html,
      r (joinSep "\n" (f (pjoin s.level s.current_notebook)
          (s.filters ++ [tag])).1) = some html ∧
      url = htmlPathOf s (pjoin s.level s.current_notebook) (s.filters ++ [tag]) ∧
      remaining = (f (pjoin s.level s.current_notebook) (s.filters ++ [tag])).2 ∧
      s2.filters = s.filters ++ [tag] ∧
      s2.tagButtons = s.tagButtons.map
        (fun b => (b.1, (remaining.map Prod.fst).contains b.1)) := by
  simp only [addFilter] at heq
  split at heq
  case _ e' s1 heq' =>
    simp at heq
  case _ url' remaining' s1 heq' =>
    obtain ⟨html, hr, hurl, hrem, hs1⟩ := convert_ok_inv _ _ _ _ _ _ _ _ heq'
    simp only [Prod.mk.injEq, Except.ok.injEq] at heq
    obtain ⟨⟨huu, hrr⟩, hss⟩ := heq
    subst huu
    subst hrr
    subst hss
    subst hs1
    subst hurl
    subst hrem
    exact ⟨html, hr, rfl, rfl, rfl, rfl⟩

theorem addFilter_false_error_inv
    (f : String → List String → List String × List (String × Nat))
    (r : String → Option String) (s : AppState) (tag : String)
    (e : PyError) (s2 : AppState)
    (heq : addFilter f r s tag false = (Except.error e, s2)) :
    (s.filters.findIdx? (fun t => t = tag) = none) ∨
    (∃ i, s.filters.findIdx? (fun t => t = tag) = some i ∧
      r (joinSep "\n" (f (pjoin s.level s.current_notebook)
          (s.filters.eraseIdx i)).1) = none ∧
      s2.parseCalls = s.parseCalls + 1 ∧
      s2.filters = s.filters.eraseIdx i) := by
  simp only [addFilter] at heq
  split at heq
  case _ hidx => exact Or.inl hidx
  case _ i hidx =>
    split at heq
    case _ e' s1 heq' =>
      obtain ⟨he, hrn, hs1⟩ := convert_error_inv _ _ _ _ _ _ _ heq'
      simp only [Prod.mk.injEq, Except.error.injEq] at heq
      obtain ⟨hee, hss⟩ := heq
      subst hee
      subst hss
      subst hs1
      exact Or.inr ⟨i, hidx, hrn, rfl, rfl⟩
    case _ url' remaining' s1 heq' =>
      simp at heq

theorem addFilter_false_ok_inv
    (f : String → List String → List String × List (String × Nat))
    (r : String → Option String) (s : AppState) (tag : String)
    (url : String) (remaining : List (String × Nat)) (s2 : AppState)
    (heq : addFilter f r s tag false = (Except.ok (url, remaining), s2)) :
    ∃ i, s.filters.findIdx? (fun t => t = tag) = some i ∧
    ∃ html,
      r (joinSep "\n" (f (pjoin s.level s.current_notebook)
          (s.filters.eraseIdx i)).1) = some html ∧
      url = htmlPathOf s (pjoin s.level s.current_notebook) (s.filters.eraseIdx i) ∧
      remaining = (f (pjoin s.level s.current_notebook) (s.filters.eraseIdx i)).2 ∧
      s2.parseCalls = s.parseCalls + 1 ∧
      s2.filters = s.filters.eraseIdx i ∧
      s2.tagButtons = s.tagButtons.map
        (fun b => (b.1, (remaining.map Prod.fst).contains b.1)) := by
  simp only [addFilter] at heq
  split at heq
  case _ hidx => simp at heq
  case _ i hidx =>
    split at heq
    case _ e' s1 heq' =>
      simp at heq
    case _ url' remaining' s1 heq' =>
      obtain ⟨html, hr, hurl, hrem, hs1⟩ := convert_ok_inv _ _ _ _ _ _ _ _ heq'
      simp only [Prod.mk.injEq, Except.ok.injEq] at heq
      obtain ⟨⟨huu, hrr⟩, hss⟩ := heq
      subst huu
      subst hrr
      subst hss
      subst hs1
      subst hurl
      subst hrem
      exact ⟨i, hidx, html, hr, rfl, rfl, rfl, rfl, rfl⟩

theorem loadNotebook_dirs_eq (f : String → List String → List String × List (String × Nat))
    (r : String → Option String) (s : AppState) (nb : String)
    (tags : List String) :
    ((loadNotebook f r s nb tags).2).dirs = (initLogic s).dirs := by
  simp only [loadNotebook]
  split
  case _ e s1 heq =>
    have := congrArg Prod.snd heq
    simp only at this
    rw [← this, convert_dirs]
  case _ url remaining s1 heq =>
    have := congrArg Prod.snd heq
    simp only at this
    simp only [initUI]
    rw [← this, convert_dirs]

theorem loadNotebook_level_eq (f : String → List String → List String × List (String × Nat))
    (r : String → Option String) (s : AppState) (nb : String)
    (tags : List String) :
    ((loadNotebook f r s nb tags).2).level = s.level := by
  simp only [loadNotebook]
  split
  case _ e s1 heq =>
    have := congrArg Prod.snd heq
    simp only at this
    rw [← this, convert_level]
    simp [initLogic]
  case _ url remaining s1 heq =>
    have := congrArg Prod.snd heq
    simp only at this
    simp only [initUI]
    rw [← this, convert_level]
    simp [initLogic]

theorem ensureDir_sees (d : String → Bool) (p : String) :
    (ensureDir d p).1 p = true := by
  unfold ensureDir
  by_cases h : d p = true <;> simp [h]

theorem ensureDir_mono (d : String → Bool) (p q : String) (h : d q = true) :
    (ensureDir d p).1 q = true := by
  unfold ensureDir
  by_cases hp : d p = true
  · simp [hp, h]
  · simp only [hp, if_false]
    by_cases hq : q = p <;> simp [hq, h]

theorem ensureDir_of_present (d : String → Bool) (p : String)
    (h : d p = true) : (ensureDir d p).1 = d := by
  unfold ensureDir
  simp [h]

theorem ensureDir_flag (d : String → Bool) (p : String) :
    (ensureDir d p).2 = !(d p) := by
  unfold ensureDir
  by_cases h : d p = true <;> simp [h]

theorem initLogic_dirs_website (s : AppState) :
    (initLogic s).dirs (pjoin s.level ".website") = true := by
  simp only [initLogic]
  exact ensureDir_mono _ _ _ (ensureDir_sees _ _)

theorem initLogic_dirs_temp (s : AppState) :
    (initLogic s).dirs (pjoin s.level ".temp") = true := by
  simp only [initLogic]
  exact ensureDir_sees _ _

theorem initLogic_dirs_stable (s : AppState)
    (h1 : s.dirs (pjoin s.level ".website") = true)
    (h2 : s.dirs (pjoin s.level ".temp") = true) :
    (initLogic s).dirs = s.dirs := by
  simp only [initLogic]
  rw [ensureDir_of_present _ _ h1, ensureDir_of_present _ _ h2]

theorem findIdx?_none_of_not_mem {t : String} {l : List String}
    (h : t ∉ l) : l.findIdx? (fun u => u = t) = none := by
  rw [List.findIdx?_eq_none_iff]
  intro x hx
  by_contra hc
  simp only [Bool.not_eq_false, decide_eq_true_eq] at hc
  exact h (hc ▸ hx)

/-- Claim C9: in every call to `convert`, the scratch markdown file at the
temporary path is written (created or overwritten) before the external
renderer is invoked; consequently, even when the renderer subsequently
fails, the scratch file for that filter combination has already been
written to disk — the post-state holds the assembled document at the
scratch location whether the renderer succeeded or not. -/
theorem convert_writes_scratch
    (f : String → List String → List String × List (String × Nat))
    (r : String → Option String) (s : AppState) (path : String)
    (tags : List String) :
    ((convert f r s path tags).2).files (tempPathOf s path tags)
      = some (joinSep "\n" (f path tags).1) := by
  cases hr : r (joinSep "\n" (f path tags).1) with
  | none => simp [convert, hr, writeFile]
  | some html =>
    have hne := tempPathOf_ne_htmlPathOf s s path path tags tags
    simp [convert, hr, writeFile, hne]

/-- Claim C10: every call to `loadNotebook` ensures the per-notebook
artifact directories `.website` and `.temp` under the notebook folder
exist; `ensureDir` invokes `mkdir` exactly when the directory is missing
(its flag is the negation of existence, so a load never attempts to create
an existing directory), and a repeated load leaves the directory state
unchanged. -/
theorem loadNotebook_ensures_dirs
    (f f' : String → List String → List String × List (String × Nat))
    (r r' : String → Option String) (s : AppState) (nb nb' : String)
    (tags tags' : List String) :
    ((loadNotebook f r s nb tags).2).dirs (pjoin s.level ".website") = true ∧
    ((loadNotebook f r s nb tags).2).dirs (pjoin s.level ".temp") = true ∧
    ((loadNotebook f' r' ((loadNotebook f r s nb tags).2) nb' tags').2).dirs
      = ((loadNotebook f r s nb tags).2).dirs ∧
    (∀ d p, (ensureDir d p).2 = !(d p)) := by
  have h1 := loadNotebook_dirs_eq f r s nb tags
  have hw : ((loadNotebook f r s nb tags).2).dirs (pjoin s.level ".website") = true := by
    rw [h1]; exact initLogic_dirs_website s
  have ht : ((loadNotebook f r s nb tags).2).dirs (pjoin s.level ".temp") = true := by
    rw [h1]; exact initLogic_dirs_temp s
  refine ⟨hw, ht, ?_, fun d p => ensureDir_flag d p⟩
  rw [loadNotebook_dirs_eq f' r' _ nb' tags']
  apply initLogic_dirs_stable
  · rw [loadNotebook_level_eq]; exact hw
  · rw [loadNotebook_level_eq]; exact ht

/-- Claim C1 (amended): `convert` performs no cache-hit check — every call
invokes the external renderer exactly once, even when a rendered artifact
already exists at the derived location. -/
theorem convert_always_invokes_renderer
    (f : String → List String → List String × List (String × Nat))
    (r : String → Option String) (s : AppState) (path : String)
    (tags : List String) :
    ((convert f r s path tags).2).rendererCalls = s.rendererCalls + 1 := by
  simp only [convert]
  split <;> rfl

/-- Claim C1 counterexample: two successive loads of the same unchanged
notebook with filter `x` invoke the renderer twice; the artifact produced
by the first load is already at the derived location when the second load
runs, yet the renderer is invoked again (the claim requires at most one
invocation across both calls). -/
theorem two_loads_render_twice :
    (((loadNotebook fntm0 renderer0 s0 "nb.md" ["x"]).2).files
        (htmlPathOf (initLogic s0) "home/nb.md" ["x"]) ≠ none) ∧
    ((loadNotebook fntm0 renderer0
        ((loadNotebook fntm0 renderer0 s0 "nb.md" ["x"]).2) "nb.md"
        ["x"]).2).rendererCalls = 2 := by
  constructor
  · decide
  · decide

/-- Claim C3 (amended): every filter-update transition re-runs the whole
extraction — both the add-tag transition (any tag) and the remove-tag
transition (any currently active tag) invoke `from_notes_to_markdown` on
the notebook file one more time; no entry sequence or tag index from load
time is reused. -/
theorem addFilter_reruns_extraction
    (f : String → List String → List String × List (String × Nat))
    (r : String → Option String) (s : AppState) (t1 t2 : String)
    (h : t2 ∈ s.filters) :
    ((addFilter f r s t1 true).2).parseCalls = s.parseCalls + 1 ∧
    ((addFilter f r s t2 false).2).parseCalls = s.parseCalls + 1 := by
  constructor
  · simp only [addFilter]
    split
    case _ e s1 heq =>
      have := congrArg Prod.snd heq
      simp only at this
      rw [← this, convert_parseCalls]
    case _ url remaining s1 heq =>
      have := congrArg Prod.snd heq
      simp only at this
      rw [← this, convert_parseCalls]
  · rcases hL : addFilter f r s t2 false with ⟨res, s2⟩
    cases res with
    | error e =>
      rcases addFilter_false_error_inv _ _ _ _ _ _ hL with hnone | ⟨i, hidx, hrn, hpc, hfil⟩
      · rw [List.findIdx?_eq_none_iff] at hnone
        have hx := hnone t2 h
        simp at hx
      · exact hpc
    | ok val =>
      obtain ⟨url, remaining⟩ := val
      obtain ⟨i, hidx, html, hr, hurl, hrem, hpc, hfil, hbtn⟩ :=
        addFilter_false_ok_inv _ _ _ _ _ _ _ hL
      exact hpc

/-- Witness for `addFilter_reruns_extraction`: in the session `sF` the tag
`x` is active, so both the add-tag update (with `y`) and the remove-tag
update (with `x`) re-run the extraction. -/
theorem addFilter_reruns_extraction_witness :
    ("x" : String) ∈ sF.filters ∧
    (((addFilter fntm0 renderer0 sF "y" true).2).parseCalls = sF.parseCalls + 1 ∧
     ((addFilter fntm0 renderer0 sF "x" false).2).parseCalls = sF.parseCalls + 1) :=
  ⟨by decide, addFilter_reruns_extraction fntm0 renderer0 sF "y" "x" (by decide)⟩

/-- Claim C3 counterexample: a concrete add-tag filter update increases
the extraction-invocation count, so the Entry Parser is re-run rather than
the load-time entry sequence being reused. -/
theorem filter_update_reparses :
    ((addFilter fntm0 renderer0 sP "x" true).2).parseCalls ≠ sP.parseCalls := by
  decide

/-- Claim C2 (amended): the cache key concatenates the notebook base name
with the active tag sequence in its given order — no sorting is applied —
so two active sequences that are permutations of the same two distinct
underscore-free tags derive different scratch and rendered-artifact
locations. -/
theorem cache_locations_order_sensitive (s : AppState) (path x y : String)
    (hxy : x ≠ y) (hx : '_' ∉ x.data) (hy : '_' ∉ y.data) :
    tempPathOf s path [x, y] ≠ tempPathOf s path [y, x] ∧
    htmlPathOf s path [x, y] ≠ htmlPathOf s path [y, x] := by
  have hcb := cacheBase_swap_ne path x y hxy hx hy
  refine ⟨fun h => hcb ?_, fun h => hcb ?_⟩
  · unfold tempPathOf pjoin at h
    exact str_append_right_cancel (str_append_left_cancel h)
  · unfold htmlPathOf pjoin at h
    exact str_append_right_cancel (str_append_left_cancel h)

/-- Witness for `cache_locations_order_sensitive` at the tags `x`, `y`. -/
theorem cache_locations_order_sensitive_witness :
    (("x" : String) ≠ "y" ∧ '_' ∉ ("x" : String).data ∧ '_' ∉ ("y" : String).data) ∧
    (tempPathOf sP "home/nb.md" ["x", "y"] ≠ tempPathOf sP "home/nb.md" ["y", "x"] ∧
     htmlPathOf sP "home/nb.md" ["x", "y"] ≠ htmlPathOf sP "home/nb.md" ["y", "x"]) :=
  ⟨⟨by decide, by decide, by decide⟩,
   cache_locations_order_sensitive sP "home/nb.md" "x" "y" (by decide)
     (by decide) (by decide)⟩

/-- Claim C2 counterexample: the active sequences `[x, y]` and `[y, x]`
are permutations of the same set, yet the scratch and rendered-artifact
locations derived by `convert` for them differ. -/
theorem permuted_tags_different_location :
    htmlPathOf (initLogic s0) "home/nb.md" ["x", "y"]
      ≠ htmlPathOf (initLogic s0) "home/nb.md" ["y", "x"] ∧
    tempPathOf (initLogic s0) "home/nb.md" ["x", "y"]
      ≠ tempPathOf (initLogic s0) "home/nb.md" ["y", "x"] := by
  constructor <;> decide

/-- Claim C4 (amended): removing a tag that is not currently active raises
`ValueError` — an exception escaping the slot — though it does leave the
state unchanged; and adding an already-active tag is not rejected but
appends a duplicate to the filter sequence.  Neither case surfaces a
`FilterError` no-op. -/
theorem filter_misuse_not_noop
    (f : String → List String → List String × List (String × Nat))
    (r : String → Option String) (s : AppState) (t1 t2 : String)
    (h1 : t1 ∉ s.filters) (_h2 : t2 ∈ s.filters) :
    addFilter f r s t1 false = (Except.error PyError.valueError, s) ∧
    ((addFilter f r s t2 true).2).filters = s.filters ++ [t2] := by
  constructor
  · simp only [addFilter]
    rw [findIdx?_none_of_not_mem h1]
  · simp only [addFilter]
    split
    case _ e s1 heq =>
      have := congrArg Prod.snd heq
      simp only at this
      rw [← this, convert_filters]
    case _ url remaining s1 heq =>
      have := congrArg Prod.snd heq
      simp only at this
      rw [← this, convert_filters]

/-- Witness for `filter_misuse_not_noop`: in the session `sF` the tag `z`
is inactive while `x` is active. -/
theorem filter_misuse_not_noop_witness :
    (("z" : String) ∉ sF.filters ∧ ("x" : String) ∈ sF.filters) ∧
    (addFilter fntm0 renderer0 sF "z" false = (Except.error PyError.valueError, sF) ∧
     ((addFilter fntm0 renderer0 sF "x" true).2).filters = sF.filters ++ ["x"]) :=
  ⟨⟨by decide, by decide⟩,
   filter_misuse_not_noop fntm0 renderer0 sF "z" "x" (by decide) (by decide)⟩

/-- Claim C4 counterexample: removing a tag that is not in the active
filter raises a `ValueError` exception, contradicting the claim that the
operation raises no exception. -/
theorem remove_missing_tag_raises :
    (addFilter fntm0 renderer0 sP "z" false).1 = Except.error PyError.valueError := by
  rfl

/-- Claim C5 (amended): when the renderer fails during an add-tag filter
update, the error propagates and nothing is written at the
rendered-artifact location — every file other than the scratch file is
unchanged, so the previously published artifact is intact — but the
active filter retains the just-toggled tag: the filter mutation precedes
rendering and is not rolled back. -/
theorem addFilter_renderFail
    (f : String → List String → List String × List (String × Nat))
    (r : String → Option String) (s : AppState) (tag : String)
    (h : r (joinSep "\n" (f (pjoin s.level s.current_notebook)
        (s.filters ++ [tag])).1) = none) :
    (addFilter f r s tag true).1 = Except.error PyError.renderError ∧
    ((addFilter f r s tag true).2).filters = s.filters ++ [tag] ∧
    ∀ p, p ≠ tempPathOf s (pjoin s.level s.current_notebook) (s.filters ++ [tag]) →
      ((addFilter f r s tag true).2).files p = s.files p := by
  rcases hL : addFilter f r s tag true with ⟨res, s2⟩
  cases res with
  | ok val =>
    obtain ⟨url, remaining⟩ := val
    obtain ⟨html, hr, -⟩ := addFilter_true_ok_inv f r s tag url remaining s2 hL
    exact absurd (h.symm.trans hr) (fun hh => Option.noConfusion hh)
  | error e =>
    obtain ⟨he, -, hfil, hfiles⟩ := addFilter_true_error_inv f r s tag e s2 hL
    subst he
    refine ⟨rfl, hfil, fun p hp => ?_⟩
    show s2.files p = s.files p
    rw [hfiles]
    simp only [writeFile]
    rw [if_neg hp]

/-- Witness for `addFilter_renderFail` at a failing renderer. -/
theorem addFilter_renderFail_witness :
    rendererFail (joinSep "\n" (fntm0 (pjoin sP.level sP.current_notebook)
        (sP.filters ++ ["x"])).1) = none ∧
    ((addFilter fntm0 rendererFail sP "x" true).1 = Except.error PyError.renderError ∧
     ((addFilter fntm0 rendererFail sP "x" true).2).filters = sP.filters ++ ["x"] ∧
     ∀ p, p ≠ tempPathOf sP (pjoin sP.level sP.current_notebook) (sP.filters ++ ["x"]) →
       ((addFilter fntm0 rendererFail sP "x" true).2).files p = sP.files p) :=
  ⟨by decide, addFilter_renderFail fntm0 rendererFail sP "x" (by decide)⟩

/-- Claim C5 counterexample: a failed render during an add-tag update
leaves the just-added tag in the active filter, so the session is not left
in its previous state as the claim requires. -/
theorem failed_render_changes_filter :
    (addFilter fntm0 rendererFail sP "x" true).1 = Except.error PyError.renderError ∧
    ((addFilter fntm0 rendererFail sP "x" true).2).filters ≠ sP.filters := by
  exact ⟨rfl, by decide⟩

/-- Claim C6 (amended): after `loadNotebook(identity, initialTags)` the
returned artifact location and the stored reachable tags are those
produced by the pipeline run with `initialTags`, but the session's filter
sequence is reset to the empty list regardless of the requested initial
filter, so subsequent filter updates build on the empty filter rather
than on `initialTags`. -/
theorem loadNotebook_resets_filters
    (f : String → List String → List String × List (String × Nat))
    (r : String → Option String) (s : AppState) (nb : String)
    (tags : List String)
    (h : r (joinSep "\n" (f (pjoin s.level nb) tags).1) ≠ none) :
    ((loadNotebook f r s nb tags).2).filters = [] ∧
    (loadNotebook f r s nb tags).1
      = Except.ok (htmlPathOf (initLogic s) (pjoin s.level nb) tags) ∧
    ((loadNotebook f r s nb tags).2).extracted_tags
      = (f (pjoin s.level nb) tags).2 := by
  rcases hL : loadNotebook f r s nb tags with ⟨res, s2⟩
  cases res with
  | error e => exact absurd (loadNotebook_error_inv f r s nb tags e s2 hL) h
  | ok url =>
    obtain ⟨html, hr, hurl, hfil, hext, -⟩ :=
      loadNotebook_ok_inv f r s nb tags url s2 hL
    exact ⟨hfil, by rw [hurl], hext⟩

/-- Witness for `loadNotebook_resets_filters` with initial filter `x`. -/
theorem loadNotebook_resets_filters_witness :
    renderer0 (joinSep "\n" (fntm0 (pjoin s0.level "nb.md") ["x"]).1) ≠ none ∧
    (((loadNotebook fntm0 renderer0 s0 "nb.md" ["x"]).2).filters = [] ∧
     (loadNotebook fntm0 renderer0 s0 "nb.md" ["x"]).1
       = Except.ok (htmlPathOf (initLogic s0) (pjoin s0.level "nb.md") ["x"]) ∧
     ((loadNotebook fntm0 renderer0 s0 "nb.md" ["x"]).2).extracted_tags
       = (fntm0 (pjoin s0.level "nb.md") ["x"]).2) :=
  ⟨by decide, loadNotebook_resets_filters fntm0 renderer0 s0 "nb.md" ["x"] (by decide)⟩

/-- Claim C6 counterexample: loading with the requested initial filter `x`
succeeds and produces the artifact for `x`, yet the session's current
filter sequence is empty, not the requested `[x]`. -/
theorem load_with_tags_filters_empty :
    (loadNotebook fntm0 renderer0 s0 "nb.md" ["x"]).1
      = Except.ok "home/.website/nb_x.html" ∧
    ((loadNotebook fntm0 renderer0 s0 "nb.md" ["x"]).2).filters ≠ ["x"] := by
  exact ⟨rfl, by decide⟩

/-- Claim C8 (amended): a reload resets the filter sequence to empty and
replaces the in-memory tag index with the freshly extracted one; no file
is deleted, and every file other than the scratch file and rendered
artifact of the initial (empty) filter key is unchanged — those two are
re-rendered and overwritten rather than left intact. -/
theorem loadNotebook_reload_frame
    (f : String → List String → List String × List (String × Nat))
    (r : String → Option String) (s : AppState) (nb : String)
    (h : r (joinSep "\n" (f (pjoin s.level nb) []).1) ≠ none) :
    ((loadNotebook f r s nb []).2).filters = [] ∧
    ((loadNotebook f r s nb []).2).extracted_tags = (f (pjoin s.level nb) []).2 ∧
    (∀ p, p ≠ tempPathOf (initLogic s) (pjoin s.level nb) [] →
          p ≠ htmlPathOf (initLogic s) (pjoin s.level nb) [] →
          ((loadNotebook f r s nb []).2).files p = s.files p) ∧
    (∀ p, s.files p ≠ none → ((loadNotebook f r s nb []).2).files p ≠ none) := by
  rcases hL : loadNotebook f r s nb [] with ⟨res, s2⟩
  cases res with
  | error e => exact absurd (loadNotebook_error_inv f r s nb [] e s2 hL) h
  | ok url =>
    obtain ⟨html, hr, hurl, hfil, hext, hfiles⟩ :=
      loadNotebook_ok_inv f r s nb [] url s2 hL
    refine ⟨hfil, hext, fun p hp1 hp2 => ?_, fun p hp => ?_⟩
    · show s2.files p = s.files p
      rw [hfiles]
      simp only [writeFile]
      rw [if_neg hp2, if_neg hp1]
    · show s2.files p ≠ none
      rw [hfiles]
      simp only [writeFile]
      by_cases h2 : p = htmlPathOf (initLogic s) (pjoin s.level nb) []
      · simp [h2]
      · rw [if_neg h2]
        by_cases h1 : p = tempPathOf (initLogic s) (pjoin s.level nb) []
        · simp [h1]
        · rw [if_neg h1]
          exact hp

/-- Witness for `loadNotebook_reload_frame`: reloading the Scenario
notebook over the session that already holds an artifact on disk. -/
theorem loadNotebook_reload_frame_witness :
    renderer0 (joinSep "\n" (fntm0 (pjoin sOld.level "nb.md") []).1) ≠ none ∧
    (((loadNotebook fntm0 renderer0 sOld "nb.md" []).2).filters = [] ∧
     ((loadNotebook fntm0 renderer0 sOld "nb.md" []).2).extracted_tags
       = (fntm0 (pjoin sOld.level "nb.md") []).2 ∧
     (∀ p, p ≠ tempPathOf (initLogic sOld) (pjoin sOld.level "nb.md") [] →
           p ≠ htmlPathOf (initLogic sOld) (pjoin sOld.level "nb.md") [] →
           ((loadNotebook fntm0 renderer0 sOld "nb.md" []).2).files p = sOld.files p) ∧
     (∀ p, sOld.files p ≠ none →
           ((loadNotebook fntm0 renderer0 sOld "nb.md" []).2).files p ≠ none)) :=
  ⟨by decide, loadNotebook_reload_frame fntm0 renderer0 sOld "nb.md" (by decide)⟩

theorem not_mem_remainingOf_keys (entries : List Entry) (active : List String)
    (t : String) (ht : t ∈ active) :
    t ∉ (remainingOf entries active).map Prod.fst := by
  intro hmem
  simp only [remainingOf, List.map_map, List.mem_map] at hmem
  obtain ⟨v, hv, hveq⟩ := hmem
  rw [List.mem_filter] at hv
  have hvt : v = t := hveq
  subst hvt
  have hc := hv.2
  simp only [Bool.not_eq_true'] at hc
  simp [ht] at hc

theorem fntmOf_snd (entries : List Entry) (path : String)
    (active : List String) :
    (fntmOf entries path active).2 = remainingOf entries active := rfl

/-- Claim C7 (amended): after every filter change — add-tag with any tag,
or remove-tag with a currently active tag — every tag button is kept,
presented as disabled rather than removed, and a button is enabled exactly
when its key is in the reachable set of the updated filter; since the
reachable set excludes the active tags, any still-selected tag's own
button is disabled as well: it stays visible but is not usable for
toggling off. -/
theorem addFilter_disables_unreachable (entries : List Entry)
    (r : String → Option String) (s : AppState) (tag : String)
    (checked : Bool) (hral : ∀ c, r c ≠ none)
    (hmem : checked = false → tag ∈ s.filters) :
    ((addFilter (fntmOf entries) r s tag checked).2).tagButtons.map Prod.fst
      = s.tagButtons.map Prod.fst ∧
    (∀ kb ∈ ((addFilter (fntmOf entries) r s tag checked).2).tagButtons,
      kb.2 = ((remainingOf entries
          ((addFilter (fntmOf entries) r s tag checked).2).filters).map
          Prod.fst).contains kb.1) ∧
    (∀ kb ∈ ((addFilter (fntmOf entries) r s tag checked).2).tagButtons,
      kb.1 ∈ ((addFilter (fntmOf entries) r s tag checked).2).filters →
        kb.2 = false) := by
  rcases hL : addFilter (fntmOf entries) r s tag checked with ⟨res, s2⟩
  cases checked with
  | true =>
    cases res with
    | error e =>
      obtain ⟨-, hrn, -, -⟩ := addFilter_true_error_inv _ _ _ _ _ _ hL
      exact absurd hrn (hral _)
    | ok val =>
      obtain ⟨url, remaining⟩ := val
      obtain ⟨html, hr, -, hrem, hfil, hbtn⟩ := addFilter_true_ok_inv _ _ _ _ _ _ _ hL
      subst hrem
      refine ⟨?_, ?_, ?_⟩
      · show s2.tagButtons.map Prod.fst = s.tagButtons.map Prod.fst
        rw [hbtn, List.map_map]
        rfl
      · intro kb hkb
        have hkb' : kb ∈ s2.tagButtons := hkb
        rw [hbtn] at hkb'
        obtain ⟨b, hb, rfl⟩ := List.mem_map.mp hkb'
        show ((fntmOf entries (pjoin s.level s.current_notebook)
            (s.filters ++ [tag])).2.map Prod.fst).contains b.1
          = ((remainingOf entries s2.filters).map Prod.fst).contains b.1
        rw [hfil, fntmOf_snd]
      · intro kb hkb hin
        have hkb' : kb ∈ s2.tagButtons := hkb
        rw [hbtn] at hkb'
        obtain ⟨b, hb, rfl⟩ := List.mem_map.mp hkb'
        have hin' : b.1 ∈ s.filters ++ [tag] := by rw [← hfil]; exact hin
        have hnot := not_mem_remainingOf_keys entries (s.filters ++ [tag]) b.1 hin'
        show ((fntmOf entries (pjoin s.level s.current_notebook)
            (s.filters ++ [tag])).2.map Prod.fst).contains b.1 = false
        rw [fntmOf_snd]
        simp [hnot]
  | false =>
    have hmem' : tag ∈ s.filters := hmem rfl
    cases res with
    | error e =>
      rcases addFilter_false_error_inv _ _ _ _ _ _ hL with hnone | ⟨i, hidx, hrn, -, -⟩
      · rw [List.findIdx?_eq_none_iff] at hnone
        have hx := hnone tag hmem'
        simp at hx
      · exact absurd hrn (hral _)
    | ok val =>
      obtain ⟨url, remaining⟩ := val
      obtain ⟨i, hidx, html, hr, hurl, hrem, -, hfil, hbtn⟩ :=
        addFilter_false_ok_inv _ _ _ _ _ _ _ hL
      subst hrem
      refine ⟨?_, ?_, ?_⟩
      · show s2.tagButtons.map Prod.fst = s.tagButtons.map Prod.fst
        rw [hbtn, List.map_map]
        rfl
      · intro kb hkb
        have hkb' : kb ∈ s2.tagButtons := hkb
        rw [hbtn] at hkb'
        obtain ⟨b, hb, rfl⟩ := List.mem_map.mp hkb'
        show ((fntmOf entries (pjoin s.level s.current_notebook)
            (s.filters.eraseIdx i)).2.map Prod.fst).contains b.1
          = ((remainingOf entries s2.filters).map Prod.fst).contains b.1
        rw [hfil, fntmOf_snd]
      · intro kb hkb hin
        have hkb' : kb ∈ s2.tagButtons := hkb
        rw [hbtn] at hkb'
        obtain ⟨b, hb, rfl⟩ := List.mem_map.mp hkb'
        have hin' : b.1 ∈ s.filters.eraseIdx i := by rw [← hfil]; exact hin
        have hnot := not_mem_remainingOf_keys entries (s.filters.eraseIdx i) b.1 hin'
        show ((fntmOf entries (pjoin s.level s.current_notebook)
            (s.filters.eraseIdx i)).2.map Prod.fst).contains b.1 = false
        rw [fntmOf_snd]
        simp [hnot]

/-- Witness for `addFilter_disables_unreachable` exercising the remove-tag
transition: in the session `sF` the tag `x` is active and is toggled off. -/
theorem addFilter_disables_unreachable_witness :
    (∀ c, renderer0 c ≠ none) ∧
    ((false : Bool) = false → ("x" : String) ∈ sF.filters) ∧
    (((addFilter (fntmOf entriesA) renderer0 sF "x" false).2).tagButtons.map Prod.fst
        = sF.tagButtons.map Prod.fst ∧
     (∀ kb ∈ ((addFilter (fntmOf entriesA) renderer0 sF "x" false).2).tagButtons,
        kb.2 = ((remainingOf entriesA
            ((addFilter (fntmOf entriesA) renderer0 sF "x" false).2).filters).map
            Prod.fst).contains kb.1) ∧
     (∀ kb ∈ ((addFilter (fntmOf entriesA) renderer0 sF "x" false).2).tagButtons,
        kb.1 ∈ ((addFilter (fntmOf entriesA) renderer0 sF "x" false).2).filters →
          kb.2 = false)) :=
  ⟨fun c hc => Option.noConfusion hc, by decide,
   addFilter_disables_unreachable entriesA renderer0 sF "x" false
     (fun c hc => Option.noConfusion hc) (by decide)⟩

/-- Claim C7 counterexample: in the Scenario A session, selecting the tag
`x` leaves the buttons as `x` disabled and `y` enabled — the selected
tag's own button is disabled, so it is not usable for toggling it off. -/
theorem active_tag_button_disabled :
    ((addFilter (fntmOf entriesA) renderer0 sP "x" true).2).tagButtons
      = [("x", false), ("y", true)] := by
  decide

/-- Claim C8 counterexample: a reload overwrites the previously cached
rendered artifact at the empty-filter location, so cached artifacts on
disk are not all left unchanged. -/
theorem reload_overwrites_artifact :
    ((loadNotebook fntm0 renderer0 sOld "nb.md" []).2).files "home/.website/nb.html"
      ≠ sOld.files "home/.website/nb.html" := by
  decide

end NoteOrganiser
